import Mathlib

/-!
Shallow embedding of the paginated story-fetching flow of the
hacker-news-redux repository: the Redux `story` slice (actions, reducer,
selector), the page-slicing API helper, and the App component's scroll
callback.  The action creators `fetchStoryIds` and `fetchStories` are
embedded from the source shown in README.md (lines 359-405); the App
callback from src/components/App/index.js.  The story reducer, the
`hasMoreStoriesSelector` and `hackerNewsApi.getStoriesByPage` are present
in the repository only as prose and screenshots in README.md, so their
definitions here are modelled from the spec (each such definition says so
in its doc comment).
-/

namespace HNReader

/-- Errors carried by failure actions; the code passes the raw axios error
through, so its structure never matters — a string stands for it. -/
abbrev Err := String

/-- A story detail record as returned by `GET /v0/item/{id}.json`.
The source field `by` is a Lean keyword, rendered here as `author`. -/
structure Story where
  id : Nat
  author : String
  score : Int
  title : String
  url : String
  time : Nat
  kids : List Nat
deriving Repr, DecidableEq

/-- The `story` slice of the Redux state:
`{ storyIds, stories, page, isFetching }`. -/
structure StoryState where
  storyIds : List Nat
  stories : List Story
  page : Nat
  isFetching : Bool
deriving Repr, DecidableEq

/-- The `app` slice (theme toggling); irrelevant to the claims but kept so
the root state mirrors `combineReducers({ story, app })`. -/
structure AppState where
  theme : String
deriving Repr, DecidableEq

/-- The root Redux state produced by `combineReducers({ story, app })`. -/
structure RootState where
  story : StoryState
  app : AppState
deriving Repr, DecidableEq

/-- Modelled from the spec: the initial state of the story reducer
(src/store/story/reducer.js is shown only as a screenshot in README.md).
Spec §3: "PaginationState is created at application start with empty
defaults". -/
def getInitialState : StoryState :=
  { storyIds := [], stories := [], page := 0, isFetching := false }

/-- The actions dispatched by the story thunks, README.md lines 364-371.
`fetchStoriesSuccess` carries `Except Err (List Story)` because the code
dispatches FETCH_STORIES_SUCCESS both with a `{ stories }` payload (then
branch) and with the raw error as payload (catch branch). -/
inductive Action where
  | fetchStoryIdsRequest
  | fetchStoryIdsSuccess (storyIds : List Nat)
  | fetchStoryIdsFailure (err : Err)
  | fetchStoriesRequest (storyIds : List Nat) (page : Nat)
  | fetchStoriesSuccess (payload : Except Err (List Story))
  | fetchStoriesFailure (err : Err)
deriving Repr

/-- Modelled from the spec: the story reducer (src/store/story/reducer.js
is shown only as a screenshot in README.md).  README lines 420-422: on
FETCH_STORY_IDS_SUCCESS the payload's only key, `storyIds`, is spread into
the state; on FETCH_STORIES_SUCCESS "we add the new stories to the
previously created list ... we increment the page and set the `isFetching`
state to false".  Request actions set `isFetching` and failures clear it,
per the spec invariant that `isFetching` is true only between request
dispatch and its resolution/rejection.  When the FETCH_STORIES_SUCCESS
payload is the raw error (catch branch) there is no `stories` key to
append; per spec §4.2 the fetch is then marked complete without
appending. -/
def story (state : StoryState) (a : Action) : StoryState :=
  match a with
  | .fetchStoryIdsRequest => { state with isFetching := true }
  | .fetchStoryIdsSuccess ids => { state with storyIds := ids }
  | .fetchStoryIdsFailure _ => { state with isFetching := false }
  | .fetchStoriesRequest _ _ => { state with isFetching := true }
  | .fetchStoriesSuccess (.ok stories) =>
      { state with stories := state.stories ++ stories,
                   page := state.page + 1, isFetching := false }
  | .fetchStoriesSuccess (.error _) =>
      { state with page := state.page + 1, isFetching := false }
  | .fetchStoriesFailure _ => { state with isFetching := false }

/-- Redux dispatch is serialized: a list of dispatched actions folds
through the reducer. -/
def applyActions (s : StoryState) (acts : List Action) : StoryState :=
  acts.foldl story s

/-- Recognizes a FETCH_STORIES_REQUEST action (used to count page-fetch
requests). -/
def isStoriesRequest : Action → Bool
  | .fetchStoriesRequest _ _ => true
  | _ => false

/-- The page size constant: 20 items per page (README line 355, spec §6). -/
def storiesPerPage : Nat := 20

/-- JavaScript `Array.prototype.slice(b, e)` for non-negative bounds:
the elements at indices `[b, e)`, clamped to the array length. -/
def jsSlice (l : List α) (b e : Nat) : List α :=
  (l.take e).drop b

/-- Modelled from the spec: the ID slice taken by
`hackerNewsApi.getStoriesByPage` (src/services/hackerNewsApi.js is not in
the snapshot; README line 355 describes it: "we only fetch 20 stories at a
time. We `.slice()` the story ID array based on the current page"). -/
def getStoriesByPageIds (storyIds : List Nat) (page : Nat) : List Nat :=
  jsSlice storyIds (page * storiesPerPage) (page * storiesPerPage + storiesPerPage)

/-- Modelled from the spec: `hackerNewsApi.getStoriesByPage`
(src/services/hackerNewsApi.js is not in the snapshot; README line 355:
one `/v0/item/{id}` request per ID in the slice, joined with `Promise.all`
"preserving the ranking from the order of the story IDs").  `fetchItem`
stands for the per-ID detail request; `Promise.all` returns results at the
index of their request regardless of arrival order, which is exactly
`List.map`. -/
def getStoriesByPage (fetchItem : Nat → Story) (storyIds : List Nat) (page : Nat) :
    List Story :=
  (getStoriesByPageIds storyIds page).map fetchItem

/-- Modelled from the spec: `hasMoreStoriesSelector`
(src/store/story/selectors.js is shown only as a screenshot; README lines
561-562 and spec §4.3: `hasMore = stories.length < storyIds.length`). -/
def hasMoreStoriesSelector (state : RootState) : Bool :=
  state.story.stories.length < state.story.storyIds.length

/-- Embeds `actions.fetchStories` (README lines 390-401): dispatch
FETCH_STORIES_REQUEST with the payload, then call
`getStoriesByPage(storyIds, page)`; when the promise resolves dispatch
FETCH_STORIES_SUCCESS with `{ stories }`, and in the catch branch dispatch
FETCH_STORIES_SUCCESS again — with the raw error as payload.  `result` is
the outcome of the API call; the function returns the dispatched action
sequence in order. -/
def fetchStoriesDispatches (storyIds : List Nat) (page : Nat)
    (result : Except Err (List Story)) : List Action :=
  [.fetchStoriesRequest storyIds page, .fetchStoriesSuccess result]

/-- Embeds `actions.fetchStoryIds` (README lines 376-389): dispatch
FETCH_STORY_IDS_REQUEST, then call `getTopStoryIds()`; on success dispatch
FETCH_STORY_IDS_SUCCESS with `{ storyIds }` and immediately dispatch
`fetchStories({ storyIds, page: 0 })`; on failure dispatch
FETCH_STORY_IDS_FAILURE with the error.  `idsResult` is the outcome of the
listing request and `pageResult` the outcome the page-0 fetch would get. -/
def fetchStoryIdsDispatches (idsResult : Except Err (List Nat))
    (pageResult : Except Err (List Story)) : List Action :=
  .fetchStoryIdsRequest ::
    match idsResult with
    | .ok ids => .fetchStoryIdsSuccess ids :: fetchStoriesDispatches ids 0 pageResult
    | .error e => [.fetchStoryIdsFailure e]

/-- A thunk dispatched from the UI (the two action creators of
src/store/story/actions.js). -/
inductive ThunkCall where
  | fetchStoryIds
  | fetchStories (storyIds : List Nat) (page : Nat)
deriving Repr, DecidableEq

/-- The plain actions a list of thunk dispatches unfolds to, given the API
outcomes. -/
def dispatchesOfCalls (idsResult : Except Err (List Nat))
    (pageResult : Except Err (List Story)) (calls : List ThunkCall) : List Action :=
  match calls with
  | [] => []
  | .fetchStoryIds :: rest =>
      fetchStoryIdsDispatches idsResult pageResult ++
        dispatchesOfCalls idsResult pageResult rest
  | .fetchStories ids p :: rest =>
      fetchStoriesDispatches ids p pageResult ++
        dispatchesOfCalls idsResult pageResult rest

/-- Embeds the `fetchStories` callback of the App component
(src/components/App/index.js lines 26-30): it dispatches
`actions.fetchStories({ storyIds, page })` only when `isFetching` is
false, and otherwise dispatches nothing. -/
def appFetchStories (isFetching : Bool) (storyIds : List Nat) (page : Nat) :
    List ThunkCall :=
  if isFetching then [] else [.fetchStories storyIds page]

/-- C1: for every page fetch that fails, the fetch is marked complete
without appending — after the dispatches of a failed `fetchStories` the
stories list is unchanged and `isFetching` is false, and exactly one
FETCH_STORIES_REQUEST was issued (no retry), so no partial results are
added. -/
theorem fetchStories_failure_complete_without_append (s : StoryState)
    (ids : List Nat) (p : Nat) (e : Err) :
    (applyActions s (fetchStoriesDispatches ids p (.error e))).stories = s.stories ∧
    (applyActions s (fetchStoriesDispatches ids p (.error e))).isFetching = false ∧
    (fetchStoriesDispatches ids p (.error e)).countP isStoriesRequest = 1 :=
  ⟨rfl, rfl, rfl⟩

/-- C2: for every ID list and page index `p`, the page fetcher requests
exactly the IDs in the slice `[20*p, 20*p+20)` clamped to the list length:
the requested IDs are `(ids.drop (20*p)).take 20`, whose length is
`min 20 (ids.length - 20*p)` — fewer than 20 when the list ends inside the
slice and zero when `20*p` is at or past the end. -/
theorem getStoriesByPageIds_slice (ids : List Nat) (p : Nat) :
    getStoriesByPageIds ids p = (ids.drop (20 * p)).take 20 ∧
    (getStoriesByPageIds ids p).length = min 20 (ids.length - 20 * p) := by
  have h : getStoriesByPageIds ids p = (ids.drop (20 * p)).take 20 := by
    unfold getStoriesByPageIds jsSlice storiesPerPage
    rw [List.drop_take, Nat.add_sub_cancel_left, Nat.mul_comm]
  refine ⟨h, ?_⟩
  rw [h, List.length_take, List.length_drop]

/-- C3: the availability selector returns true iff
`stories.length < storyIds.length` (and, being a plain function of the
state, it neither mutates the state nor has side effects). -/
theorem hasMoreStoriesSelector_iff (s : RootState) :
    hasMoreStoriesSelector s = true ↔
      s.story.stories.length < s.story.storyIds.length := by
  simp [hasMoreStoriesSelector]

/-- C4: for every successful page fetch, the new stories list is the old
list with the resolved stories appended at the end, and the page counter
is the old page counter plus one. -/
theorem fetchStories_success_appends (s : StoryState) (ids : List Nat)
    (p : Nat) (resolved : List Story) :
    (applyActions s (fetchStoriesDispatches ids p (.ok resolved))).stories
        = s.stories ++ resolved ∧
    (applyActions s (fetchStoriesDispatches ids p (.ok resolved))).page
        = s.page + 1 :=
  ⟨rfl, rfl⟩

/-- C5: the stories list only ever grows at the end — after any sequence
of dispatched actions the old stories list is an initial segment of the
new one, so fetching and appending page `p+1` never reorders or removes
the stories appended by pages `0..p`, and every reachable stories list is
the rank-ordered sequence of appends performed so far. -/
theorem stories_append_only (s : StoryState) (acts : List Action) :
    ∃ t, (applyActions s acts).stories = s.stories ++ t := by
  induction acts generalizing s with
  | nil => exact ⟨[], by simp [applyActions]⟩
  | cons a rest ih =>
    obtain ⟨t, ht⟩ := ih (story s a)
    have hstep : ∃ u, (story s a).stories = s.stories ++ u := by
      cases a with
      | fetchStoriesSuccess payload =>
        cases payload with
        | ok st => exact ⟨st, rfl⟩
        | error e => exact ⟨[], by simp [story]⟩
      | fetchStoryIdsRequest => exact ⟨[], by simp [story]⟩
      | fetchStoryIdsSuccess ids => exact ⟨[], by simp [story]⟩
      | fetchStoryIdsFailure e => exact ⟨[], by simp [story]⟩
      | fetchStoriesRequest ids p => exact ⟨[], by simp [story]⟩
      | fetchStoriesFailure e => exact ⟨[], by simp [story]⟩
    obtain ⟨u, hu⟩ := hstep
    refine ⟨u ++ t, ?_⟩
    have : applyActions s (a :: rest) = applyActions (story s a) rest := rfl
    rw [this, ht, hu, List.append_assoc]

/-- C6: on success of the story-ID fetch the dispatched sequence is
exactly REQUEST, SUCCESS with the full ID list, then the page-0 fetch with
that same list; applying it stores the full ordered ID list in the
state. -/
theorem fetchStoryIds_success_stores_and_triggers (s : StoryState)
    (ids : List Nat) (r : Except Err (List Story)) :
    fetchStoryIdsDispatches (.ok ids) r =
      [.fetchStoryIdsRequest, .fetchStoryIdsSuccess ids,
       .fetchStoriesRequest ids 0, .fetchStoriesSuccess r] ∧
    (applyActions s (fetchStoryIdsDispatches (.ok ids) r)).storyIds = ids := by
  refine ⟨rfl, ?_⟩
  cases r <;> rfl

/-- C7: a failed ID-listing request, run from the initial state, leaves
both `storyIds` and `stories` empty and dispatches no page-fetch request.
-/
theorem fetchStoryIds_failure_empty_no_page (e : Err)
    (r : Except Err (List Story)) :
    (applyActions getInitialState (fetchStoryIdsDispatches (.error e) r)).storyIds
        = [] ∧
    (applyActions getInitialState (fetchStoryIdsDispatches (.error e) r)).stories
        = [] ∧
    (fetchStoryIdsDispatches (.error e) r).countP isStoriesRequest = 0 :=
  ⟨rfl, rfl, rfl⟩

/-- C8: `isFetching` is true only between a request dispatch and its
resolution or rejection — each request action sets it, and after the full
dispatch sequence of either thunk, whatever the API outcomes, it is
false. -/
theorem isFetching_lifecycle (s : StoryState) (ids : List Nat) (p : Nat)
    (r : Except Err (List Story)) (ir : Except Err (List Nat)) :
    (story s (.fetchStoriesRequest ids p)).isFetching = true ∧
    (story s .fetchStoryIdsRequest).isFetching = true ∧
    (applyActions s (fetchStoriesDispatches ids p r)).isFetching = false ∧
    (applyActions s (fetchStoryIdsDispatches ir r)).isFetching = false := by
  refine ⟨rfl, rfl, ?_, ?_⟩
  · cases r <;> rfl
  · cases ir with
    | ok ids2 => cases r <;> rfl
    | error e => rfl

/-- C9: the page fetcher issues one detail request per ID of the slice and
joins the responses preserving input order: the resolved page has the same
length as the slice, and its entry at every position `i` is the detail
fetched for the ID at position `i` of the slice. -/
theorem getStoriesByPage_preserves_order (f : Nat → Story) (ids : List Nat)
    (p : Nat) (i : Nat) :
    (getStoriesByPage f ids p).length = (getStoriesByPageIds ids p).length ∧
    (getStoriesByPage f ids p)[i]? = ((getStoriesByPageIds ids p)[i]?).map f := by
  constructor
  · simp [getStoriesByPage]
  · simp [getStoriesByPage]

/-- C10: the App component's `fetchStories` callback dispatches nothing
when `isFetching` is true — the pagination state is unchanged — and
dispatches exactly one page-fetch thunk, with the current IDs and page,
when `isFetching` is false. -/
theorem app_fetchStories_guard (ids : List Nat) (p : Nat) (s : StoryState)
    (ir : Except Err (List Nat)) (r : Except Err (List Story)) :
    appFetchStories true ids p = [] ∧
    applyActions s (dispatchesOfCalls ir r (appFetchStories true ids p)) = s ∧
    appFetchStories false ids p = [.fetchStories ids p] :=
  ⟨rfl, rfl, rfl⟩

end HNReader
